import Mathlib

/-!
Verification of the Si7013/20/21 relative-humidity/temperature I2C driver
(`drivers/iio/humidity/si7020.c`), as a shallow embedding.

The driver is embedded as pure Lean functions over an explicit device-state
record.  Fallible bus calls (`i2c_smbus_read_word_swapped`,
`i2c_smbus_write_byte`, `i2c_master_recv`) are modelled as oracles returning
`Except Int α`: `.error e` stands for the C convention `ret = e < 0`, `.ok`
for a non-negative return.  Time is measured in microseconds; only the
jittered sleeps of the no-hold polling loop advance the clock, which starts
at 0 just after the no-hold command write (matching `start = jiffies`).
The polling loop, time-bounded in C, is given fuel sufficient for any sleep
schedule respecting the `usleep_range` lower bound; exhausted fuel (possible
only for sleep schedules below that bound) is modelled as `none`.
Every bus operation performed is recorded in a trace, so that the "no device
I/O" properties are provable.
-/

/-- `SI7020CMD_RH_HOLD`: Measure Relative Humidity, Hold Master Mode. -/
def SI7020CMD_RH_HOLD : Nat := 0xE5

/-- `SI7020CMD_RH_NO_HOLD`: Measure Relative Humidity, No Hold Master Mode. -/
def SI7020CMD_RH_NO_HOLD : Nat := 0xF5

/-- `SI7020CMD_TEMP_HOLD`: Measure Temperature, Hold Master Mode. -/
def SI7020CMD_TEMP_HOLD : Nat := 0xE3

/-- `SI7020CMD_TEMP_NO_HOLD`: Measure Temperature, No Hold Master Mode. -/
def SI7020CMD_TEMP_NO_HOLD : Nat := 0xF3

/-- `SI7020CMD_RESET`: Software Reset. -/
def SI7020CMD_RESET : Nat := 0xFE

/-- `SI7020_RH_TIMEOUT`: relative humidity measurement timeout (us). -/
def SI7020_RH_TIMEOUT : Nat := 22800

/-- `SI7020_TEMP_TIMEOUT`: temperature measurement timeout (us). -/
def SI7020_TEMP_TIMEOUT : Nat := 10800

/-- `SI7020_NOHOLD_SLEEP_MIN`: minimum delay between retries (No Hold Mode), us. -/
def SI7020_NOHOLD_SLEEP_MIN : Nat := 2000

/-- `SI7020_NOHOLD_SLEEP_MAX`: maximum delay between retries (No Hold Mode), us. -/
def SI7020_NOHOLD_SLEEP_MAX : Nat := 6000

/-- Linux errno `EINVAL` (invalid argument). -/
def EINVAL : Int := 22

/-- Linux errno `ENODEV` (no such device). -/
def ENODEV : Int := 19

/-- Linux errno `ENOMEM` (out of memory). -/
def ENOMEM : Int := 12

/-- The two channel types declared in `si7020_channels`
(`IIO_HUMIDITYRELATIVE` and `IIO_TEMP`). -/
inductive ChanType where
  | humidityRelative
  | temp
deriving DecidableEq, Repr

/-- The `mask` argument of `si7020_read_raw`: the three handled
`IIO_CHAN_INFO_*` cases plus `other` for every remaining value of the
C `long`, which falls through to the `default:` branch. -/
inductive Mask where
  | raw
  | scale
  | offset
  | other
deriving DecidableEq, Repr

/-- `struct si7020_platform_data` from `include/linux/platform_data/si7020.h`. -/
structure Si7020PlatformData where
  blocking_io : Bool
deriving DecidableEq, Repr

/-- One bus-level operation performed by the driver, recorded for trace
properties ("performs no device I/O", wire-opcode preservation). -/
inductive BusOp where
  /-- `i2c_smbus_read_word_swapped(client, cmd)` -/
  | readWordSwapped (cmd : Nat)
  /-- `i2c_smbus_write_byte(client, cmd)` -/
  | writeByte (cmd : Nat)
  /-- the `n`-th `i2c_master_recv(client, buf, 2)` attempt -/
  | masterRecv (n : Nat)
deriving DecidableEq, Repr

/-- The device/environment state visible to the driver: the optional platform
data, the adapter's capability and quirk flags, and oracles giving the result
of each bus call together with the duration of each jittered sleep.
All of these are immutable attributes of the attached device. -/
structure Device where
  /-- `dev_get_platdata(&client->dev)` -/
  pdata : Option Si7020PlatformData
  /-- `i2c_check_functionality(adapter, I2C_FUNC_SMBUS_WRITE_BYTE)` -/
  funcSmbusWriteByte : Bool
  /-- `i2c_check_functionality(adapter, I2C_FUNC_SMBUS_READ_WORD_DATA)` -/
  funcSmbusReadWordData : Bool
  /-- `i2c_check_functionality(adapter, I2C_FUNC_I2C)` -/
  funcI2c : Bool
  /-- `i2c_check_quirks(adapter, I2C_AQ_NO_CLK_STRETCH)` -/
  quirkNoClkStretch : Bool
  /-- result of `i2c_smbus_read_word_swapped(client, cmd)`: a negative errno
  or the 16-bit big-endian-assembled word -/
  readWordSwapped : Nat → Except Int Nat
  /-- result of `i2c_smbus_write_byte(client, cmd)` -/
  writeByte : Nat → Except Int Unit
  /-- result of the `n`-th `i2c_master_recv(client, buf, 2)` attempt:
  a negative errno or the two received bytes -/
  masterRecv : Nat → Except Int (Nat × Nat)
  /-- actual duration (us) of the `n`-th `usleep_range` call -/
  sleepDur : Nat → Nat
  /-- whether `devm_iio_device_alloc` succeeds -/
  allocOk : Bool
  /-- result of `devm_iio_device_register` -/
  registerRet : Except Int Unit

/-- The hold-mode flag computed at the top of the `IIO_CHAN_INFO_RAW` case of
`si7020_read_raw` (lines 72-77): platform data overrides; otherwise hold mode
is used exactly when the adapter has no `I2C_AQ_NO_CLK_STRETCH` quirk. -/
def negotiatedHoldmode (d : Device) : Bool :=
  match d.pdata with
  | some p => p.blocking_io
  | none => !d.quirkNoClkStretch

/-- `clamp_val(val, lo, hi)` from the kernel: `min(max(val, lo), hi)`. -/
def clamp_val (v lo hi : Nat) : Nat :=
  min (max v lo) hi

/-- Lines 110-111: the raw value is clamped to [786, 13893] exactly when the
channel is `IIO_HUMIDITYRELATIVE`; temperature passes through unchanged. -/
def clampChan (c : ChanType) (v : Nat) : Nat :=
  match c with
  | .humidityRelative => clamp_val v 786 13893
  | .temp => v

/-- Result of `si7020_read_raw` as seen by the IIO core: the return code
`IIO_VAL_INT` with `*val`, `IIO_VAL_FRACTIONAL` with `*val`/`*val2`, or a
negative errno `e` (stored as `.error e` with the C value `e < 0`). -/
inductive ReadResult where
  | valInt (val : Int)
  | valFractional (val val2 : Int)
  | error (e : Int)
deriving DecidableEq, Repr

/-- Outcome of the no-hold polling loop (lines 93-103): `success b0 b1 n t`
means the `n`-th (0-indexed) `i2c_master_recv` returned bytes `b0 b1` at
time `t`; `timedOut e n t` means the `n`-th attempt failed with errno `e`
and the timeout check `time_after(jiffies, start + timeout)` fired at
time `t`. -/
inductive PollOutcome where
  | success (b0 b1 : Nat) (n : Nat) (t : Nat)
  | timedOut (e : Int) (n : Nat) (t : Nat)
deriving DecidableEq, Repr

/-- The no-hold polling loop of `si7020_read_raw` (lines 93-103):
`while ((ret = i2c_master_recv(client, buf, 2)) < 0) { if (time_after(...))
return ret; usleep_range(MIN, MAX); }`.  `n` is the attempt index, `t` the
current time in microseconds (0 at `start = jiffies`).  The loop is
time-bounded in C; here it carries fuel, and `none` models a sleep schedule
too fast for the fuel (impossible once every sleep is at least
`SI7020_NOHOLD_SLEEP_MIN`, see `pollLoop_timedOut_general` and
`pollLoop_success_general`). -/
def pollLoop (recv : Nat → Except Int (Nat × Nat)) (sleep : Nat → Nat)
    (timeout : Nat) : Nat → Nat → Nat → Option PollOutcome
  | 0, _, _ => none
  | fuel + 1, n, t =>
    match recv n with
    | .ok (b0, b1) => some (.success b0 b1 n t)
    | .error e =>
      if timeout < t then some (.timedOut e n t)
      else pollLoop recv sleep timeout fuel (n + 1) (t + sleep n)

/-- The trace of the first `k` `i2c_master_recv` attempts. -/
def recvTrace (k : Nat) : List BusOp :=
  (List.range k).map BusOp.masterRecv

/-- The measurement timeout for a channel type:
`chan->type == IIO_TEMP ? SI7020_TEMP_TIMEOUT : SI7020_RH_TIMEOUT`. -/
def chanTimeout (c : ChanType) : Nat :=
  match c with
  | .temp => SI7020_TEMP_TIMEOUT
  | .humidityRelative => SI7020_RH_TIMEOUT

/-- Hold-mode command for a channel
(`chan->type == IIO_TEMP ? SI7020CMD_TEMP_HOLD : SI7020CMD_RH_HOLD`). -/
def holdCmd (c : ChanType) : Nat :=
  match c with
  | .temp => SI7020CMD_TEMP_HOLD
  | .humidityRelative => SI7020CMD_RH_HOLD

/-- No-hold command for a channel
(`chan->type == IIO_TEMP ? SI7020CMD_TEMP_NO_HOLD : SI7020CMD_RH_NO_HOLD`). -/
def noHoldCmd (c : ChanType) : Nat :=
  match c with
  | .temp => SI7020CMD_TEMP_NO_HOLD
  | .humidityRelative => SI7020CMD_RH_NO_HOLD

/-- Fuel given to the polling loop: enough iterations for any sleep schedule
respecting the `usleep_range` lower bound. -/
def pollFuel (timeout : Nat) : Nat :=
  timeout / SI7020_NOHOLD_SLEEP_MIN + 2

/-- The scale numerator the driver reports for a channel (lines 114-117):
`175720 = 175.72 * 1000` for temperature, `125 * 1000` for humidity. -/
def scaleNum (c : ChanType) : Int :=
  match c with
  | .temp => 175720
  | .humidityRelative => 125 * 1000

/-- The scale denominator the driver reports for every channel (line 118):
`65536 >> 2`. -/
def scaleDen : Int := 65536 >>> 2

/-- The offset the driver reports for a channel (lines 130-133):
`-4368 = -46.85 * (65536 >> 2) / 175.72` for temperature,
`-786 = -6 * (65536 >> 2) / 125` for humidity. -/
def offsetVal (c : ChanType) : Int :=
  match c with
  | .temp => -4368
  | .humidityRelative => -786

/-- `si7020_read_raw` (lines 59-140), with the bus-operation trace made
explicit.  `none` models only fuel exhaustion of the polling loop
(a sleep schedule below the `usleep_range` lower bound). -/
def si7020_read_raw (d : Device) (chan : ChanType) (mask : Mask) :
    Option (ReadResult × List BusOp) :=
  match mask with
  | .raw =>
    if negotiatedHoldmode d then
      match d.readWordSwapped (holdCmd chan) with
      | .error e => some (.error e, [.readWordSwapped (holdCmd chan)])
      | .ok w =>
        some (.valInt (clampChan chan (w >>> 2)),
              [.readWordSwapped (holdCmd chan)])
    else
      match d.writeByte (noHoldCmd chan) with
      | .error e => some (.error e, [.writeByte (noHoldCmd chan)])
      | .ok _ =>
        match pollLoop d.masterRecv d.sleepDur (chanTimeout chan)
            (pollFuel (chanTimeout chan)) 0 0 with
        | none => none
        | some (.timedOut e n _) =>
          some (.error e, .writeByte (noHoldCmd chan) :: recvTrace (n + 1))
        | some (.success b0 b1 n _) =>
          some (.valInt (clampChan chan (((b0 <<< 8) ||| b1) >>> 2)),
                .writeByte (noHoldCmd chan) :: recvTrace (n + 1))
  | .scale => some (.valFractional (scaleNum chan) scaleDen, [])
  | .offset => some (.valInt (offsetVal chan), [])
  | .other => some (.error (-EINVAL), [])

/-- The capability-negotiation check of `si7020_probe` (lines 173-185):
`true` exactly when none of the three `return -ENODEV` branches fires.
With platform data, blocking mode requires no clock-stretch quirk and
non-blocking mode requires `I2C_FUNC_I2C`; without platform data, the probe
fails only when `I2C_FUNC_I2C` is absent and the quirk is set. -/
def probeViable (d : Device) : Bool :=
  match d.pdata with
  | some p =>
    if p.blocking_io then !d.quirkNoClkStretch
    else d.funcI2c
  | none => d.funcI2c || !d.quirkNoClkStretch

/-- `si7020_probe` (lines 160-209), with the bus-operation trace made
explicit: functionality check, platform-data capability negotiation,
software reset (failures propagated), 15 ms power-up sleep, allocation and
registration. -/
def si7020_probe (d : Device) : Except Int Unit × List BusOp :=
  if !(d.funcSmbusWriteByte && d.funcSmbusReadWordData) then
    (.error (-ENODEV), [])
  else
    if !(probeViable d) then (.error (-ENODEV), [])
    else
      match d.writeByte SI7020CMD_RESET with
      | .error e => (.error e, [.writeByte SI7020CMD_RESET])
      | .ok _ =>
        if !d.allocOk then (.error (-ENOMEM), [.writeByte SI7020CMD_RESET])
        else (d.registerRet, [.writeByte SI7020CMD_RESET])

/-- Sum of the sleep durations of attempts `n, n+1, ..., n+j-1`:
the total time slept by `j` consecutive loop iterations starting at
attempt `n`. -/
def sleepSum (sleep : Nat → Nat) : Nat → Nat → Nat
  | _, 0 => 0
  | n, j + 1 => sleep n + sleepSum sleep (n + 1) j

/-- Which path a raw read takes: `true` when its first bus operation is the
combined write-then-read of hold mode, `false` otherwise. -/
def usesHoldPath (d : Device) (c : ChanType) : Bool :=
  match si7020_read_raw d c .raw with
  | some (_, BusOp.readWordSwapped _ :: _) => true
  | _ => false

/-- A device with every capability present, no platform data, and a transport
whose calls all succeed; concrete test devices override its fields. -/
def baseDevice : Device where
  pdata := none
  funcSmbusWriteByte := true
  funcSmbusReadWordData := true
  funcI2c := true
  quirkNoClkStretch := false
  readWordSwapped := fun _ => .ok 0
  writeByte := fun _ => .ok ()
  masterRecv := fun _ => .ok (0, 0)
  sleepDur := fun _ => 3000
  allocOk := true
  registerRet := .ok ()

/-- Test device: hold mode forced via platform data, and a transport whose
combined write-read transaction returns the word `0x9234`. -/
def devTempHold : Device :=
  { baseDevice with
    pdata := some ⟨true⟩,
    readWordSwapped := fun _ => .ok 0x9234 }

/-- Test device: hold mode forced via platform data, and a transport whose
combined write-read transaction returns the word `2000` (pre-clamp humidity
value `2000 >> 2 = 500`). -/
def devHumHold : Device :=
  { baseDevice with
    pdata := some ⟨true⟩,
    readWordSwapped := fun _ => .ok 2000 }

/-- Test device: no-hold mode forced via platform data; the first two
`i2c_master_recv` attempts fail, the third returns bytes `0x07 0xD0`
(pre-clamp humidity value `0x07D0 >> 2 = 500`). -/
def devHumPoll : Device :=
  { baseDevice with
    pdata := some ⟨false⟩,
    masterRecv := fun n => if n < 2 then .error (-11) else .ok (0x07, 0xD0) }

/-- Test device: no-hold mode forced via platform data; the first two
`i2c_master_recv` attempts fail, the third returns bytes `0x4E 0x20`
(raw value `0x4E20 >> 2 = 5000`). -/
def devPoll : Device :=
  { baseDevice with
    pdata := some ⟨false⟩,
    masterRecv := fun n => if n < 2 then .error (-11) else .ok (0x4E, 0x20) }

/-- Test device: no-hold mode forced via platform data; every
`i2c_master_recv` attempt fails with `-110`. -/
def devPollFail : Device :=
  { baseDevice with
    pdata := some ⟨false⟩,
    masterRecv := fun _ => .error (-110) }

/-- Test device: no-hold mode forced via platform data; every byte write
fails with `-9`. -/
def devWriteFail : Device :=
  { baseDevice with
    pdata := some ⟨false⟩,
    writeByte := fun _ => .error (-9) }

/-- Test device: every byte write (the probe-time reset included) fails
with `-5`. -/
def devResetFail : Device :=
  { baseDevice with writeByte := fun _ => .error (-5) }

/-- Test device: platform data requests blocking I/O on an adapter with the
no-clock-stretch quirk. -/
def devOverrideHold : Device :=
  { baseDevice with pdata := some ⟨true⟩, quirkNoClkStretch := true }

/-- Test device: platform data requests non-blocking I/O on an adapter
without `I2C_FUNC_I2C`. -/
def devOverridePoll : Device :=
  { baseDevice with pdata := some ⟨false⟩, funcI2c := false }

/-- Test device: no platform data, no `I2C_FUNC_I2C`, and the
no-clock-stretch quirk set, so neither mode is viable. -/
def devNoPdataBad : Device :=
  { baseDevice with funcI2c := false, quirkNoClkStretch := true }

/-- Each group of `j` consecutive jittered sleeps lasts at least `j` times
the common lower bound on the individual sleep durations. -/
theorem sleepSum_lower (sleep : Nat → Nat) (m : Nat)
    (hmin : ∀ i, m ≤ sleep i) :
    ∀ (j n : Nat), m * j ≤ sleepSum sleep n j := by
  intro j
  induction j with
  | zero => intro n; simp [sleepSum]
  | succ j ih =>
    intro n
    have h1 := hmin n
    have h2 := ih (n + 1)
    simp only [sleepSum]
    calc m * (j + 1) = m + m * j := by ring
    _ ≤ sleep n + sleepSum sleep (n + 1) j := Nat.add_le_add h1 h2

/-- If the first `k` receive attempts fail, attempt `k` succeeds, and the
clock has not yet passed the timeout at any failed attempt, then the polling
loop succeeds at attempt `k` after sleeping exactly `k` times, provided it
has more than `k` units of fuel. -/
theorem pollLoop_success_general
    (recv : Nat → Except Int (Nat × Nat)) (sleep : Nat → Nat)
    (timeout b0 b1 : Nat) :
    ∀ (k fuel n t : Nat), k < fuel →
      (∀ j, j < k → ∃ e, recv (n + j) = .error e) →
      recv (n + k) = .ok (b0, b1) →
      (∀ j, j < k → t + sleepSum sleep n j ≤ timeout) →
      pollLoop recv sleep timeout fuel n t =
        some (.success b0 b1 (n + k) (t + sleepSum sleep n k)) := by
  intro k
  induction k with
  | zero =>
    intro fuel n t hf _ hok _
    match fuel, hf with
    | fuel + 1, _ =>
      simp only [pollLoop, Nat.add_zero] at hok ⊢
      rw [hok]
      simp [sleepSum]
  | succ k ih =>
    intro fuel n t hf herr hok ht
    match fuel, hf with
    | fuel + 1, hf =>
      obtain ⟨e, he⟩ := herr 0 (Nat.succ_pos k)
      rw [Nat.add_zero] at he
      have hle : ¬ timeout < t := by
        have := ht 0 (Nat.succ_pos k)
        simp [sleepSum] at this
        omega
      simp only [pollLoop, he, hle, if_false]
      have herr' : ∀ j, j < k → ∃ e', recv (n + 1 + j) = .error e' := by
        intro j hj
        obtain ⟨e', he'⟩ := herr (j + 1) (Nat.succ_lt_succ hj)
        exact ⟨e', by rw [show n + 1 + j = n + (j + 1) by omega]; exact he'⟩
      have hok' : recv (n + 1 + k) = .ok (b0, b1) := by
        rw [show n + 1 + k = n + (k + 1) by omega]; exact hok
      have ht' : ∀ j, j < k →
          (t + sleep n) + sleepSum sleep (n + 1) j ≤ timeout := by
        intro j hj
        have := ht (j + 1) (Nat.succ_lt_succ hj)
        simp only [sleepSum] at this
        omega
      have := ih fuel (n + 1) (t + sleep n) (by omega) herr' hok' ht'
      rw [this]
      have e1 : n + 1 + k = n + (k + 1) := by omega
      have e2 : t + sleep n + sleepSum sleep (n + 1) k =
          t + sleepSum sleep n (k + 1) := by
        simp only [sleepSum]; omega
      rw [e1, e2]

/-- If every receive attempt fails and every sleep respects the
`usleep_range` bounds, the polling loop fires its timeout check: it returns
the error of its final attempt at a time strictly past the timeout but at
most one maximal sleep beyond it, given fuel worth at least the timeout in
minimal sleeps. -/
theorem pollLoop_timedOut_general
    (recv : Nat → Except Int (Nat × Nat)) (sleep : Nat → Nat)
    (timeout : Nat) (err : Nat → Int)
    (hrecv : ∀ i, recv i = .error (err i))
    (hmin : ∀ i, SI7020_NOHOLD_SLEEP_MIN ≤ sleep i)
    (hmax : ∀ i, sleep i ≤ SI7020_NOHOLD_SLEEP_MAX) :
    ∀ (fuel n t : Nat),
      timeout < t + fuel * SI7020_NOHOLD_SLEEP_MIN →
      t ≤ timeout + SI7020_NOHOLD_SLEEP_MAX →
      ∃ m tf, pollLoop recv sleep timeout (fuel + 1) n t =
          some (.timedOut (err m) m tf)
        ∧ timeout < tf ∧ tf ≤ timeout + SI7020_NOHOLD_SLEEP_MAX := by
  intro fuel
  induction fuel with
  | zero =>
    intro n t h1 h2
    have ht : timeout < t := by simpa using h1
    exact ⟨n, t, by simp [pollLoop, hrecv n, ht], ht, h2⟩
  | succ f ih =>
    intro n t h1 h2
    by_cases hc : timeout < t
    · exact ⟨n, t, by simp [pollLoop, hrecv n, hc], hc, h2⟩
    · push_neg at hc
      have hmn := hmin n
      have hmx := hmax n
      obtain ⟨m, tf, hp, l1, l2⟩ := ih (n + 1) (t + sleep n)
        (by
          simp only [SI7020_NOHOLD_SLEEP_MIN] at h1 hmn ⊢
          omega)
        (by
          simp only [SI7020_NOHOLD_SLEEP_MAX] at hmx ⊢
          omega)
      refine ⟨m, tf, ?_, l1, l2⟩
      have hnc : ¬ timeout < t := by omega
      simp only [pollLoop, hrecv n, hnc, if_false]
      exact hp

/-- Claim C1: every raw read of the Humidity channel, in hold mode and in
no-hold mode, returns the raw 14-bit value clamped to [786, 13893]. -/
theorem humidity_raw_clamped (d d' : Device) (W b0 b1 k t : Nat) :
    (negotiatedHoldmode d = true →
      d.readWordSwapped SI7020CMD_RH_HOLD = .ok W →
      si7020_read_raw d .humidityRelative .raw =
        some (.valInt (clamp_val (W >>> 2) 786 13893),
              [.readWordSwapped SI7020CMD_RH_HOLD]))
  ∧ (negotiatedHoldmode d' = false →
      d'.writeByte SI7020CMD_RH_NO_HOLD = .ok () →
      pollLoop d'.masterRecv d'.sleepDur SI7020_RH_TIMEOUT
          (pollFuel SI7020_RH_TIMEOUT) 0 0 = some (.success b0 b1 k t) →
      si7020_read_raw d' .humidityRelative .raw =
        some (.valInt (clamp_val (((b0 <<< 8) ||| b1) >>> 2) 786 13893),
              .writeByte SI7020CMD_RH_NO_HOLD :: recvTrace (k + 1))) := by
  constructor
  · intro hm hr
    simp [si7020_read_raw, holdCmd, hm, hr, clampChan]
  · intro hm hw hp
    simp [si7020_read_raw, noHoldCmd, chanTimeout, hm, hw, hp, clampChan]

/-- Witness for C1: a hold-mode word of `2000` and a no-hold byte pair
`0x07 0xD0` both give the pre-clamp value 500, and the driver returns the
clamped value 786 in both modes. -/
theorem humidity_raw_clamped_witness :
    si7020_read_raw devHumHold .humidityRelative .raw =
      some (.valInt 786, [.readWordSwapped SI7020CMD_RH_HOLD])
  ∧ si7020_read_raw devHumPoll .humidityRelative .raw =
      some (.valInt 786, .writeByte SI7020CMD_RH_NO_HOLD :: recvTrace 3) := by
  constructor
  · have h := (humidity_raw_clamped devHumHold devHumPoll 2000 7 0xD0 2 6000).1
      rfl rfl
    exact h.trans (by decide)
  · have h := (humidity_raw_clamped devHumHold devHumPoll 2000 7 0xD0 2 6000).2
      rfl rfl (by decide)
    exact h.trans (by decide)

/-- Claim C2: a raw read of the Temperature channel in hold mode returns
exactly the transport word shifted right by two, with no clamping, and a
transport error is passed through unmodified. -/
theorem temp_hold_exact (d : Device) (W : Nat) (e : Int)
    (hm : negotiatedHoldmode d = true) :
    (d.readWordSwapped SI7020CMD_TEMP_HOLD = .ok W →
      si7020_read_raw d .temp .raw =
        some (.valInt (W >>> 2), [.readWordSwapped SI7020CMD_TEMP_HOLD]))
  ∧ (d.readWordSwapped SI7020CMD_TEMP_HOLD = .error e →
      si7020_read_raw d .temp .raw =
        some (.error e, [.readWordSwapped SI7020CMD_TEMP_HOLD])) := by
  constructor <;> intro h <;>
    simp [si7020_read_raw, holdCmd, hm, h, clampChan]

/-- Witness for C2: the word `0x9234` yields `0x9234 >> 2 = 9357`. -/
theorem temp_hold_exact_witness :
    negotiatedHoldmode devTempHold = true
  ∧ si7020_read_raw devTempHold .temp .raw =
      some (.valInt 9357, [.readWordSwapped SI7020CMD_TEMP_HOLD]) := by
  refine ⟨rfl, ?_⟩
  have h := (temp_hold_exact devTempHold 0x9234 (-1) rfl).1 rfl
  exact h.trans (by decide)

/-- Claim C3: for every device state and both channels, the Scale and Offset
queries return the fixed constants (`175.72 * 1000` over `65536 >> 2` and
`125 * 1000` over `65536 >> 2`; `-4368` and `-786`) with an empty bus trace,
i.e. without any device I/O. -/
theorem scale_offset_constants : ∀ d : Device,
    si7020_read_raw d .temp .scale =
      some (.valFractional 175720 (65536 >>> 2), [])
  ∧ si7020_read_raw d .humidityRelative .scale =
      some (.valFractional (125 * 1000) (65536 >>> 2), [])
  ∧ si7020_read_raw d .temp .offset = some (.valInt (-4368), [])
  ∧ si7020_read_raw d .humidityRelative .offset =
      some (.valInt (-786), []) := by
  intro d
  exact ⟨rfl, rfl, rfl, rfl⟩

/-- Witness for C3 at a concrete device. -/
theorem scale_offset_constants_witness :
    si7020_read_raw baseDevice .temp .scale =
      some (.valFractional 175720 (65536 >>> 2), [])
  ∧ si7020_read_raw baseDevice .humidityRelative .scale =
      some (.valFractional (125 * 1000) (65536 >>> 2), [])
  ∧ si7020_read_raw baseDevice .temp .offset = some (.valInt (-4368), [])
  ∧ si7020_read_raw baseDevice .humidityRelative .offset =
      some (.valInt (-786), []) :=
  scale_offset_constants baseDevice

/-- Claim C4: in no-hold mode the no-hold opcode is written standalone and a
write failure is returned immediately; otherwise 2-byte reads are retried
with a sleep after each failure until one succeeds, and the result is the
two bytes assembled big-endian, shifted right by two, and passed through the
channel clamp; success on attempt `k` happens after exactly `k` sleeps. -/
theorem nohold_poll_protocol
    (d : Device) (c : ChanType) (e : Int) (b0 b1 k : Nat)
    (hm : negotiatedHoldmode d = false)
    (hmin : ∀ i, SI7020_NOHOLD_SLEEP_MIN ≤ d.sleepDur i) :
    (d.writeByte (noHoldCmd c) = .error e →
      si7020_read_raw d c .raw = some (.error e, [.writeByte (noHoldCmd c)]))
  ∧ (d.writeByte (noHoldCmd c) = .ok () →
     (∀ j, j < k → ∃ e', d.masterRecv j = .error e') →
     d.masterRecv k = .ok (b0, b1) →
     (∀ j, j < k → sleepSum d.sleepDur 0 j ≤ chanTimeout c) →
     pollLoop d.masterRecv d.sleepDur (chanTimeout c)
        (pollFuel (chanTimeout c)) 0 0 =
       some (.success b0 b1 k (sleepSum d.sleepDur 0 k))
     ∧ si7020_read_raw d c .raw =
        some (.valInt (clampChan c (((b0 <<< 8) ||| b1) >>> 2)),
              .writeByte (noHoldCmd c) :: recvTrace (k + 1))) := by
  constructor
  · intro hw
    simp [si7020_read_raw, hm, hw]
  · intro hw herr hok ht
    have hkf : k < pollFuel (chanTimeout c) := by
      cases k with
      | zero => simp only [pollFuel, SI7020_NOHOLD_SLEEP_MIN]; omega
      | succ k' =>
        have h1 := ht k' (Nat.lt_succ_self k')
        have h2 := sleepSum_lower d.sleepDur SI7020_NOHOLD_SLEEP_MIN hmin k' 0
        simp only [pollFuel, SI7020_NOHOLD_SLEEP_MIN] at h1 h2 ⊢
        omega
    have hp := pollLoop_success_general d.masterRecv d.sleepDur (chanTimeout c)
      b0 b1 k (pollFuel (chanTimeout c)) 0 0 hkf
      (by simpa using herr) (by simpa using hok) (by simpa using ht)
    simp only [Nat.zero_add] at hp
    refine ⟨hp, ?_⟩
    simp [si7020_read_raw, hm, hw, hp]

/-- Witness for C4: a failed command write returns `-9` immediately; with
two failed reads and a third returning bytes `0x4E 0x20`, the loop succeeds
on attempt 2 after two 3000 us sleeps and the raw value is 5000. -/
theorem nohold_poll_protocol_witness :
    si7020_read_raw devWriteFail .temp .raw =
      some (.error (-9), [.writeByte (noHoldCmd .temp)])
  ∧ pollLoop devPoll.masterRecv devPoll.sleepDur (chanTimeout .temp)
      (pollFuel (chanTimeout .temp)) 0 0 = some (.success 0x4E 0x20 2 6000)
  ∧ si7020_read_raw devPoll .temp .raw =
      some (.valInt 5000, .writeByte (noHoldCmd .temp) :: recvTrace 3) := by
  have hmin : ∀ i, SI7020_NOHOLD_SLEEP_MIN ≤ devPoll.sleepDur i :=
    fun _ => by show 2000 ≤ 3000; decide
  have h := (nohold_poll_protocol devPoll .temp (-9) 0x4E 0x20 2 rfl hmin).2 rfl
    (fun j hj => ⟨-11, by interval_cases j <;> rfl⟩) rfl
    (fun j hj => by interval_cases j <;> decide)
  refine ⟨?_, ?_, ?_⟩
  · exact (nohold_poll_protocol devWriteFail .temp (-9) 0 0 0 rfl
      (fun _ => by show 2000 ≤ 3000; decide)).1 rfl
  · exact h.1.trans (by decide)
  · exact h.2.trans (by decide)

/-- Claim C5: a no-hold raw read against a transport whose reads always fail
returns the last transport error unmodified, at a time strictly after the
type-specific timeout but no later than that timeout plus the maximal
jitter sleep (6000 us), timed from just after the command write. -/
theorem nohold_allfail_timeout
    (d : Device) (c : ChanType) (err : Nat → Int)
    (hm : negotiatedHoldmode d = false)
    (hw : d.writeByte (noHoldCmd c) = .ok ())
    (hrecv : ∀ i, d.masterRecv i = .error (err i))
    (hmin : ∀ i, SI7020_NOHOLD_SLEEP_MIN ≤ d.sleepDur i)
    (hmax : ∀ i, d.sleepDur i ≤ SI7020_NOHOLD_SLEEP_MAX) :
    ∃ m tf,
      pollLoop d.masterRecv d.sleepDur (chanTimeout c)
          (pollFuel (chanTimeout c)) 0 0 = some (.timedOut (err m) m tf)
      ∧ chanTimeout c < tf
      ∧ tf ≤ chanTimeout c + SI7020_NOHOLD_SLEEP_MAX
      ∧ si7020_read_raw d c .raw =
          some (.error (err m), .writeByte (noHoldCmd c) :: recvTrace (m + 1)) := by
  have hfuel : pollFuel (chanTimeout c) =
      (chanTimeout c / SI7020_NOHOLD_SLEEP_MIN + 1) + 1 := by
    simp only [pollFuel]
  obtain ⟨m, tf, hp, l1, l2⟩ := pollLoop_timedOut_general d.masterRecv d.sleepDur
    (chanTimeout c) err hrecv hmin hmax
    (chanTimeout c / SI7020_NOHOLD_SLEEP_MIN + 1) 0 0
    (by simp only [SI7020_NOHOLD_SLEEP_MIN]; omega)
    (by omega)
  rw [← hfuel] at hp
  refine ⟨m, tf, hp, l1, l2, ?_⟩
  simp [si7020_read_raw, hm, hw, hp]

/-- Witness for C5: with every read failing with `-110` and constant 3000 us
sleeps, a temperature no-hold read times out past 10800 us. -/
theorem nohold_allfail_timeout_witness :
    ∃ m tf,
      pollLoop devPollFail.masterRecv devPollFail.sleepDur (chanTimeout .temp)
          (pollFuel (chanTimeout .temp)) 0 0 =
        some (.timedOut ((fun _ => (-110 : Int)) m) m tf)
      ∧ chanTimeout .temp < tf
      ∧ tf ≤ chanTimeout .temp + SI7020_NOHOLD_SLEEP_MAX
      ∧ si7020_read_raw devPollFail .temp .raw =
          some (.error ((fun _ => (-110 : Int)) m),
                .writeByte (noHoldCmd .temp) :: recvTrace (m + 1)) :=
  nohold_allfail_timeout devPollFail .temp (fun _ => -110) rfl rfl
    (fun _ => rfl) (fun _ => by show 2000 ≤ 3000; decide)
    (fun _ => by show 3000 ≤ 6000; decide)

/-- Claim C6: probe fails with `-ENODEV` when platform data requests
blocking mode on a no-clock-stretch adapter, or non-blocking mode without
`I2C_FUNC_I2C`; without platform data the mode is hold exactly when
clock-stretching is supported, and probe fails when neither mode is
viable. -/
theorem probe_negotiation :
    (∀ d : Device, d.pdata = some ⟨true⟩ → d.quirkNoClkStretch = true →
      (si7020_probe d).1 = .error (-ENODEV))
  ∧ (∀ d : Device, d.pdata = some ⟨false⟩ → d.funcI2c = false →
      (si7020_probe d).1 = .error (-ENODEV))
  ∧ (∀ d : Device, d.pdata = none → negotiatedHoldmode d = !d.quirkNoClkStretch)
  ∧ (∀ d : Device, d.pdata = none → d.funcI2c = false →
      d.quirkNoClkStretch = true → (si7020_probe d).1 = .error (-ENODEV)) := by
  refine ⟨?_, ?_, ?_, ?_⟩
  · intro d h1 h2
    cases hw : d.funcSmbusWriteByte <;> cases hr : d.funcSmbusReadWordData <;>
      simp [si7020_probe, probeViable, h1, h2, hw, hr]
  · intro d h1 h2
    cases hw : d.funcSmbusWriteByte <;> cases hr : d.funcSmbusReadWordData <;>
      simp [si7020_probe, probeViable, h1, h2, hw, hr]
  · intro d h1
    simp [negotiatedHoldmode, h1]
  · intro d h1 h2 h3
    cases hw : d.funcSmbusWriteByte <;> cases hr : d.funcSmbusReadWordData <;>
      simp [si7020_probe, probeViable, h1, h2, h3, hw, hr]

/-- Witness for C6 at concrete devices covering each negotiation case. -/
theorem probe_negotiation_witness :
    (si7020_probe devOverrideHold).1 = .error (-ENODEV)
  ∧ (si7020_probe devOverridePoll).1 = .error (-ENODEV)
  ∧ negotiatedHoldmode baseDevice = !baseDevice.quirkNoClkStretch
  ∧ (si7020_probe devNoPdataBad).1 = .error (-ENODEV) :=
  ⟨probe_negotiation.1 devOverrideHold rfl rfl,
   probe_negotiation.2.1 devOverridePoll rfl rfl,
   probe_negotiation.2.2.1 baseDevice rfl,
   probe_negotiation.2.2.2 devNoPdataBad rfl rfl rfl⟩

/-- Claim C7: the hold/no-hold mode of every raw read equals
`negotiatedHoldmode`, a pure function of the immutable device attributes
fixed at attach time, so all reads of one device use one mode. -/
theorem mode_fixed (d : Device) (c c' : ChanType) :
    usesHoldPath d c = negotiatedHoldmode d
  ∧ usesHoldPath d c = usesHoldPath d c' := by
  have key : ∀ c'' : ChanType, usesHoldPath d c'' = negotiatedHoldmode d := by
    intro c''
    unfold usesHoldPath si7020_read_raw
    cases hm : negotiatedHoldmode d with
    | true =>
      cases hr : d.readWordSwapped (holdCmd c'') <;> simp [hm, hr]
    | false =>
      cases hw : d.writeByte (noHoldCmd c'') with
      | error e => simp [hm, hw]
      | ok u =>
        cases hp : pollLoop d.masterRecv d.sleepDur (chanTimeout c'')
            (pollFuel (chanTimeout c'')) 0 0 with
        | none => simp [hm, hw, hp]
        | some o => cases o <;> simp [hm, hw, hp]
  exact ⟨key c, (key c).trans (key c').symm⟩

/-- Witness for C7 at a concrete device and both channels. -/
theorem mode_fixed_witness :
    usesHoldPath baseDevice .temp = negotiatedHoldmode baseDevice
  ∧ usesHoldPath baseDevice .temp = usesHoldPath baseDevice .humidityRelative :=
  mode_fixed baseDevice .temp .humidityRelative

/-- Claim C8: any mask other than Raw, Scale or Offset returns `-EINVAL`
(the invalid-argument error, `-22`) with an empty bus trace. -/
theorem unknown_mask_einval : ∀ (d : Device) (c : ChanType),
    si7020_read_raw d c .other = some (.error (-EINVAL), [])
  ∧ (-EINVAL : Int) = -22 := by
  intro d c
  exact ⟨rfl, rfl⟩

/-- Witness for C8 at a concrete device. -/
theorem unknown_mask_einval_witness :
    si7020_read_raw baseDevice .temp .other = some (.error (-EINVAL), [])
  ∧ (-EINVAL : Int) = -22 :=
  unknown_mask_einval baseDevice .temp

/-- Claim C9: the wire opcodes are preserved exactly: hold-mode reads issue
`0xE5` (humidity) / `0xE3` (temperature), no-hold reads start with a write
of `0xF5` / `0xF3`, and a successful capability check leads the probe to
write the reset opcode `0xFE`, whose failure is propagated. -/
theorem wire_opcodes_preserved :
    (SI7020CMD_RH_HOLD = 0xE5 ∧ SI7020CMD_RH_NO_HOLD = 0xF5
     ∧ SI7020CMD_TEMP_HOLD = 0xE3 ∧ SI7020CMD_TEMP_NO_HOLD = 0xF3
     ∧ SI7020CMD_RESET = 0xFE)
  ∧ (∀ d : Device, negotiatedHoldmode d = true →
      ∃ r, si7020_read_raw d .humidityRelative .raw =
        some (r, [.readWordSwapped SI7020CMD_RH_HOLD]))
  ∧ (∀ d : Device, negotiatedHoldmode d = true →
      ∃ r, si7020_read_raw d .temp .raw =
        some (r, [.readWordSwapped SI7020CMD_TEMP_HOLD]))
  ∧ (∀ (d : Device) (r : ReadResult) (tr : List BusOp),
      negotiatedHoldmode d = false →
      si7020_read_raw d .humidityRelative .raw = some (r, tr) →
      tr.head? = some (.writeByte SI7020CMD_RH_NO_HOLD))
  ∧ (∀ (d : Device) (r : ReadResult) (tr : List BusOp),
      negotiatedHoldmode d = false →
      si7020_read_raw d .temp .raw = some (r, tr) →
      tr.head? = some (.writeByte SI7020CMD_TEMP_NO_HOLD))
  ∧ (∀ (d : Device) (e : Int),
      d.funcSmbusWriteByte = true → d.funcSmbusReadWordData = true →
      probeViable d = true →
      (si7020_probe d).2 = [.writeByte SI7020CMD_RESET]
      ∧ (d.writeByte SI7020CMD_RESET = .error e →
          (si7020_probe d).1 = .error e)) := by
  refine ⟨⟨rfl, rfl, rfl, rfl, rfl⟩, ?_, ?_, ?_, ?_, ?_⟩
  · intro d hm
    cases hr : d.readWordSwapped SI7020CMD_RH_HOLD with
    | error e =>
      exact ⟨.error e, by simp [si7020_read_raw, holdCmd, hm, hr]⟩
    | ok w =>
      exact ⟨.valInt (clampChan .humidityRelative (w >>> 2)),
        by simp [si7020_read_raw, holdCmd, hm, hr]⟩
  · intro d hm
    cases hr : d.readWordSwapped SI7020CMD_TEMP_HOLD with
    | error e =>
      exact ⟨.error e, by simp [si7020_read_raw, holdCmd, hm, hr]⟩
    | ok w =>
      exact ⟨.valInt (clampChan .temp (w >>> 2)),
        by simp [si7020_read_raw, holdCmd, hm, hr]⟩
  · intro d r tr hm h
    cases hw : d.writeByte SI7020CMD_RH_NO_HOLD with
    | error e =>
      simp [si7020_read_raw, noHoldCmd, chanTimeout, hm, hw] at h
      rw [← h.2]; rfl
    | ok u =>
      cases hp : pollLoop d.masterRecv d.sleepDur SI7020_RH_TIMEOUT
          (pollFuel SI7020_RH_TIMEOUT) 0 0 with
      | none => simp [si7020_read_raw, noHoldCmd, chanTimeout, hm, hw, hp] at h
      | some o =>
        cases o <;>
          simp [si7020_read_raw, noHoldCmd, chanTimeout, hm, hw, hp] at h <;>
          rw [← h.2] <;> rfl
  · intro d r tr hm h
    cases hw : d.writeByte SI7020CMD_TEMP_NO_HOLD with
    | error e =>
      simp [si7020_read_raw, noHoldCmd, chanTimeout, hm, hw] at h
      rw [← h.2]; rfl
    | ok u =>
      cases hp : pollLoop d.masterRecv d.sleepDur SI7020_TEMP_TIMEOUT
          (pollFuel SI7020_TEMP_TIMEOUT) 0 0 with
      | none => simp [si7020_read_raw, noHoldCmd, chanTimeout, hm, hw, hp] at h
      | some o =>
        cases o <;>
          simp [si7020_read_raw, noHoldCmd, chanTimeout, hm, hw, hp] at h <;>
          rw [← h.2] <;> rfl
  · intro d e hw hr hv
    constructor
    · cases hrst : d.writeByte SI7020CMD_RESET with
      | error e' => simp [si7020_probe, hw, hr, hv, hrst]
      | ok u =>
        cases ha : d.allocOk <;> simp [si7020_probe, hw, hr, hv, hrst, ha]
    · intro hrst
      simp [si7020_probe, hw, hr, hv, hrst]

/-- Witness for C9 at concrete devices for both modes and for the probe
reset, including a failing reset propagated as `-5`. -/
theorem wire_opcodes_preserved_witness :
    (∃ r, si7020_read_raw devTempHold .temp .raw =
        some (r, [.readWordSwapped SI7020CMD_TEMP_HOLD]))
  ∧ (∃ r, si7020_read_raw devHumHold .humidityRelative .raw =
        some (r, [.readWordSwapped SI7020CMD_RH_HOLD]))
  ∧ (si7020_probe baseDevice).2 = [.writeByte SI7020CMD_RESET]
  ∧ (si7020_probe devResetFail).1 = .error (-5)
  ∧ (BusOp.writeByte SI7020CMD_RH_NO_HOLD :: recvTrace 3).head? =
      some (.writeByte SI7020CMD_RH_NO_HOLD) := by
  refine ⟨wire_opcodes_preserved.2.2.1 devTempHold rfl,
          wire_opcodes_preserved.2.1 devHumHold rfl,
          (wire_opcodes_preserved.2.2.2.2.2 baseDevice (-1) rfl rfl rfl).1,
          (wire_opcodes_preserved.2.2.2.2.2 devResetFail (-5) rfl rfl rfl).2 rfl,
          ?_⟩
  exact wire_opcodes_preserved.2.2.2.1 devHumPoll (.valInt 786)
    (BusOp.writeByte SI7020CMD_RH_NO_HOLD :: recvTrace 3) rfl (by decide)

/-- Claim C10: the humidity clamp bounds match the calibration constants:
the clamp always lands in [786, 13893], and for every such raw value the
processed value `(r + offset) * scale_num / scale_den` lies between 0 and
100000 milli-percent in exact rational arithmetic. -/
theorem humidity_calibration_in_range :
    (∀ v : Nat, 786 ≤ clampChan .humidityRelative v
      ∧ clampChan .humidityRelative v ≤ 13893)
  ∧ (∀ r : Int, 786 ≤ r → r ≤ 13893 →
      0 ≤ ((r : ℚ) + (offsetVal .humidityRelative : ℚ))
            * (scaleNum .humidityRelative : ℚ) / (scaleDen : ℚ)
      ∧ ((r : ℚ) + (offsetVal .humidityRelative : ℚ))
            * (scaleNum .humidityRelative : ℚ) / (scaleDen : ℚ) ≤ 100000) := by
  constructor
  · intro v
    simp only [clampChan, clamp_val]
    omega
  · intro r h1 h2
    have hr1 : (786 : ℚ) ≤ (r : ℚ) := by exact_mod_cast h1
    have hr2 : (r : ℚ) ≤ 13893 := by exact_mod_cast h2
    have hnum : (scaleNum .humidityRelative : ℚ) = 125000 := by
      norm_num [scaleNum]
    have hden' : scaleDen = 16384 := by decide
    have hden : (scaleDen : ℚ) = 16384 := by rw [hden']; norm_num
    have hoff : (offsetVal .humidityRelative : ℚ) = -786 := by
      norm_num [offsetVal]
    rw [hnum, hden, hoff]
    constructor
    · apply div_nonneg _ (by norm_num)
      nlinarith
    · rw [div_le_iff₀ (by norm_num : (0 : ℚ) < 16384)]
      nlinarith

/-- Witness for C10 at the clamp's upper bound `r = 13893` (and the clamp
applied to the pre-clamp value 500). -/
theorem humidity_calibration_in_range_witness :
    (786 ≤ clampChan .humidityRelative 500
      ∧ clampChan .humidityRelative 500 ≤ 13893)
  ∧ (0 ≤ (((13893 : Int) : ℚ) + (offsetVal .humidityRelative : ℚ))
          * (scaleNum .humidityRelative : ℚ) / (scaleDen : ℚ)
    ∧ (((13893 : Int) : ℚ) + (offsetVal .humidityRelative : ℚ))
          * (scaleNum .humidityRelative : ℚ) / (scaleDen : ℚ) ≤ 100000) :=
  ⟨humidity_calibration_in_range.1 500,
   humidity_calibration_in_range.2 13893 (by norm_num) (by norm_num)⟩
